import Mathlib

/-!
Shallow embedding of the job-orchestration and caching layer of the
spotDL API service (`src/main.py`).

Conventions of the embedding:
* Python dicts (`url_cache`, `task_status`, `temp_files`) become
  association lists `List (String × _)`; dict assignment is modelled by
  `dictSet` (prepend after erasing the old binding), dict lookup by
  `List.lookup`.
* Wall-clock instants are `Nat` seconds; `time.time() - ts` becomes
  truncated `Nat` subtraction (the clock is assumed monotone where it
  matters, stated as a hypothesis `t ≤ now`).
* The external `spotdl` child process is an oracle `ToolRun` recording
  whether/when it exits, its exit code, and its stderr text.
* Filesystem state visible to a code path is passed explicitly: the list
  of file names a staging directory contains, an `onDisk : String → Bool`
  existence oracle, flags for the fallible `shutil` operations that the
  source guards with try/except.
* `hashlib.md5(...).hexdigest()` is kept abstract: definitions that need
  the fingerprint take an arbitrary `md5 : String → String` parameter and
  apply it to the exact string the source formats; properties about what
  goes *into* the fingerprint are stated on that input string.
* URL percent-encoding (`quote`/`unquote`) is not modelled (no claim
  depends on it); the decoded name is taken as given.
-/

namespace SpotdlAPI

/-- The constant `CACHE_TTL = 3600` (main.py line 23). -/
def CACHE_TTL : Nat := 3600

/-- One value of the `url_cache` dict: `{'file_path': ..., 'timestamp': ...}`. -/
structure CacheEntry where
  file_path : String
  timestamp : Nat

deriving DecidableEq, Repr

/-- Python dict assignment `d[k] = v` on an association list:
the old binding for `k` (if any) is removed and the new one prepended,
so `List.lookup` sees the new value. -/
def dictSet {β : Type} (l : List (String × β)) (k : String) (v : β) :
    List (String × β) :=
  (k, v) :: l.eraseP (fun kv => kv.1 == k)

/-- The cache probe of `get_audio_download_link` (main.py lines 132-135):
a key present in `url_cache` is a hit only if its age is strictly below
`CACHE_TTL` *and* the recorded `file_path` still exists on disk;
otherwise the code falls through to the miss path. -/
def cacheLookup (cache : List (String × CacheEntry)) (key : String)
    (now : Nat) (onDisk : String → Bool) : Option CacheEntry :=
  match cache.lookup key with
  | some e => if now - e.timestamp < CACHE_TTL && onDisk e.file_path then some e else none
  | none => none

/-- The cache store `url_cache[cache_key] = {'file_path': p, 'timestamp': time.time()}`
(main.py lines 224-227 and 233-236): an unconditional overwrite. -/
def cacheStore (cache : List (String × CacheEntry)) (key path : String)
    (t : Nat) : List (String × CacheEntry) :=
  dictSet cache key ⟨path, t⟩

/-- The string the source feeds to `hashlib.md5` to derive the cache key:
`f"{request.spotify_url}_{request.format}_{request.quality}"` (main.py line 131). -/
def cache_key_input (spotify_url format quality : String) : String :=
  spotify_url ++ "_" ++ format ++ "_" ++ quality

/-! ## Job records and executor write traces

A job's record is the `DownloadStatus` pydantic object stored in
`task_status` (main.py lines 74-79).  Background executors mutate it
field by field; we record every assignment the executor performs on its
record as an ordered list of `WriteEvent`s and obtain the observable
record at any later time by folding the events over the initial
`queued` record created by the route handler (e.g. main.py lines 349-352).
The `progress` field is never assigned anywhere in the source, so there
is no write event for it. -/

/-- The `DownloadStatus` record (main.py lines 74-79). -/
structure JobRecord where
  status : String
  progress : Option Nat
  file_path : Option String
  error : Option String

deriving DecidableEq, Repr

/-- One field assignment `task_status[task_id].<field> = v`. -/
inductive WriteEvent where
  | setStatus (v : String)
  | setFilePath (v : String)
  | setError (v : String)

deriving DecidableEq, Repr

def applyWrite (r : JobRecord) : WriteEvent → JobRecord
  | .setStatus v => { r with status := v }
  | .setFilePath v => { r with file_path := some v }
  | .setError v => { r with error := some v }

def applyTrace (r : JobRecord) (t : List WriteEvent) : JobRecord :=
  t.foldl applyWrite r

/-- The record a route handler publishes before scheduling the executor,
e.g. main.py lines 349-352. -/
def initialRecord : JobRecord :=
  { status := "queued", progress := none, file_path := none, error := none }

/-- The record observable once the executor has performed the writes `t`
(for a hanging executor: the writes made before the hang). -/
def finalRecord (t : List WriteEvent) : JobRecord :=
  applyTrace initialRecord t

/-- The terminal statuses are `completed` and `failed`. -/
def isTerminal (s : String) : Bool :=
  s == "completed" || s == "failed"

/-- What the external `spotdl` child process does on one invocation. -/
structure ToolRun where
  /-- Value `none` if the process never exits, otherwise the seconds until exit. -/
  exitTime : Option Nat
  returncode : Int
  stderrText : String

deriving DecidableEq, Repr

/-- The guard `asyncio.wait_for(..., timeout=120)` raises `TimeoutError` exactly when
the child has not finished within 120 seconds. -/
def timedOut (r : ToolRun) : Bool :=
  match r.exitTime with
  | none => true
  | some t => 120 < t

/-- Everything the environment decides for one background-executor run. -/
structure ExecEnv where
  run : ToolRun
  /-- Names of the entries the tool leaves in the job's output directory. -/
  stagingFiles : List String
  /-- Whether `shutil.rmtree(temp_dir)` (no `ignore_errors`) raises. -/
  rmtreeRaises : Bool
  /-- Text `str(e)` of that exception when it raises. -/
  rmtreeErrText : String

deriving Repr

/-- The pattern `glob(f"*.{ext}")` on a staging directory, as a suffix test on names
(computed on the underlying character lists so that it reduces in the
kernel). -/
def hasExt (ext : String) (f : String) : Bool :=
  ("." ++ ext).data.isSuffixOf f.data

/-- Write trace of `download_track_background` (main.py lines 627-678).
There is no timeout on `process.communicate()`: if the tool never exits,
the executor stays suspended forever and no write after
`status = "downloading"` ever happens. -/
def download_track_trace (env : ExecEnv) : List WriteEvent :=
  .setStatus "downloading" ::
    match env.run.exitTime with
    | none => []
    | some _ =>
      if env.run.returncode ≠ 0 then
        [.setStatus "failed", .setError env.run.stderrText]
      else
        match (if (env.stagingFiles.filter (hasExt "mp3")).isEmpty
            then env.stagingFiles
            else env.stagingFiles.filter (hasExt "mp3")) with
        | f :: _ => [.setStatus "completed", .setFilePath f]
        | [] => [.setStatus "failed", .setError "No file found after download"]

/-- Write trace of `download_playlist_background` (main.py lines 680-728);
also no timeout on `communicate()`. -/
def download_playlist_trace (outputDir : String) (env : ExecEnv) : List WriteEvent :=
  .setStatus "downloading" ::
    match env.run.exitTime with
    | none => []
    | some _ =>
      if env.run.returncode ≠ 0 then
        [.setStatus "failed", .setError env.run.stderrText]
      else
        if (env.stagingFiles.filter (hasExt "mp3")).isEmpty then
          [.setStatus "failed", .setError "No files found after download"]
        else
          [.setStatus "completed", .setFilePath outputDir]

/-- Write trace of `download_audio_link_background` (main.py lines 551-625).
This is the one background media executor with the 120-second
`asyncio.wait_for` timeout.  On the two failure paths that follow a
terminal write with `shutil.rmtree(temp_dir)` (lines 593-594 and
604-605), a raising `rmtree` is caught by the outer `except`, which
assigns `status`/`error` once more (lines 623-625). -/
def download_audio_link_trace (format base_url : String) (env : ExecEnv) :
    List WriteEvent :=
  .setStatus "downloading" ::
    if timedOut env.run then
      [.setStatus "failed", .setError "Download timeout after 2 minutes"]
    else if env.run.returncode ≠ 0 then
      [.setStatus "failed", .setError env.run.stderrText] ++
        (if env.rmtreeRaises then
          [.setStatus "failed", .setError env.rmtreeErrText] else [])
    else
      match (if (env.stagingFiles.filter (hasExt format)).isEmpty
          then env.stagingFiles.filter (hasExt "mp3")
          else env.stagingFiles.filter (hasExt format)) with
      | f :: _ =>
        [.setStatus "completed",
         .setFilePath (base_url ++ "/temp-download/" ++ f)]
      | [] =>
        [.setStatus "failed", .setError "No audio file found"] ++
          (if env.rmtreeRaises then
            [.setStatus "failed", .setError env.rmtreeErrText] else [])

/-- Write trace of `save_metadata_background` (main.py lines 730-764). -/
def save_metadata_trace (savePath : String) (run : ToolRun) : List WriteEvent :=
  .setStatus "processing" ::
    match run.exitTime with
    | none => []
    | some _ =>
      if run.returncode = 0 then
        [.setStatus "completed", .setFilePath savePath]
      else
        [.setStatus "failed", .setError run.stderrText]

/-- Write trace of `get_urls_background` (main.py lines 766-804). -/
def get_urls_trace (urlsPath : String) (run : ToolRun) : List WriteEvent :=
  .setStatus "processing" ::
    match run.exitTime with
    | none => []
    | some _ =>
      if run.returncode = 0 then
        [.setStatus "completed", .setFilePath urlsPath]
      else
        [.setStatus "failed", .setError run.stderrText]

/-- Write trace of `sync_playlist_background` (main.py lines 806-846). -/
def sync_playlist_trace (outputDir : String) (run : ToolRun) : List WriteEvent :=
  .setStatus "processing" ::
    match run.exitTime with
    | none => []
    | some _ =>
      if run.returncode = 0 then
        [.setStatus "completed", .setFilePath outputDir]
      else
        [.setStatus "failed", .setError run.stderrText]

/-- Write trace of `update_metadata_background` (main.py lines 848-873).
Note: the success branch (lines 865-866) sets `status = "completed"` and
nothing else — no `file_path` is recorded for a metadata-update job. -/
def update_metadata_trace (run : ToolRun) : List WriteEvent :=
  .setStatus "processing" ::
    match run.exitTime with
    | none => []
    | some _ =>
      if run.returncode = 0 then
        [.setStatus "completed"]
      else
        [.setStatus "failed", .setError run.stderrText]

/-- The events an executor performs strictly after its first write of a
terminal status. -/
def writesAfterTerminal : List WriteEvent → List WriteEvent
  | [] => []
  | .setStatus v :: rest =>
    if isTerminal v then rest else writesAfterTerminal rest
  | .setFilePath _ :: rest => writesAfterTerminal rest
  | .setError _ :: rest => writesAfterTerminal rest

/-- Field discipline of a terminal/non-terminal record.  `metaJob` is
`true` for the metadata-update executor, whose success branch records no
`file_path`. -/
def terminalFieldsOK (metaJob : Bool) (r : JobRecord) : Bool :=
  (if r.status = "failed" then r.error.isSome && r.file_path.isNone else true) &&
  (if r.status = "completed" then
    r.error.isNone && (metaJob || r.file_path.isSome) else true) &&
  (if isTerminal r.status then true else r.file_path.isNone && r.error.isNone)

/-- All status writes an executor performs after its first terminal
status write are themselves terminal. -/
def statusWritesTerminalAfter (t : List WriteEvent) : Bool :=
  (writesAfterTerminal t).all fun e =>
    match e with
    | .setStatus v => isTerminal v
    | _ => true

/-- Every status write after the first terminal status write repeats
that same terminal value: the status never reverts to a non-terminal
value and, in particular, a record never flips between `completed` and
`failed`. -/
def statusFixedAfterTerminal : List WriteEvent → Bool
  | [] => true
  | .setStatus v :: rest =>
    if isTerminal v then
      rest.all fun e =>
        match e with
        | .setStatus w => w == v
        | _ => true
    else statusFixedAfterTerminal rest
  | .setFilePath _ :: rest => statusFixedAfterTerminal rest
  | .setError _ :: rest => statusFixedAfterTerminal rest

/-- The full post-terminal status discipline: later status writes are
terminal and all repeat the first terminal value. -/
def statusDisciplineOK (t : List WriteEvent) : Bool :=
  statusWritesTerminalAfter t && statusFixedAfterTerminal t

/-! ## The Janitor sweep (`cleanup_old_files`, main.py lines 88-113)

One cycle iterates over `DOWNLOAD_DIR.glob("temp_*")`, deleting matched
directories older than one hour, and then prunes expired cache entries.
The whole cycle body sits inside a single `try`, so an exception raised
by `shutil.rmtree` on one directory propagates and aborts the remainder
of that cycle (the `except` logs it and the loop sleeps until the next
cycle).  A directory entry carries its name, whether it is a directory,
its age in seconds at sweep time, and whether deleting it raises. -/

structure DirEntry where
  name : String
  isDir : Bool
  age : Nat
  rmtreeRaises : Bool

deriving DecidableEq, Repr

/-- Whether the sweep body deletes this entry: matched by
`glob("temp_*")`, `is_dir()`, and `dir_age > 3600` (main.py lines 94-99). -/
def sweepDeletes (e : DirEntry) : Bool :=
  "temp_".data.isPrefixOf e.name.data && e.isDir && decide (3600 < e.age)

/-- The directory loop of one cycle: returns the surviving entries and
whether an `rmtree` exception aborted the cycle.  On an exception the
loop stops; remaining entries are not examined. -/
def sweepDirs : List DirEntry → List DirEntry × Bool
  | [] => ([], false)
  | e :: rest =>
    if sweepDeletes e then
      if e.rmtreeRaises then (e :: rest, true)
      else sweepDirs rest
    else
      ((e :: (sweepDirs rest).1), (sweepDirs rest).2)

/-- The cache phase of one cycle (main.py lines 102-108): drop entries
with `current_time - timestamp > CACHE_TTL`. -/
def cleanCache (now : Nat) (cache : List (String × CacheEntry)) :
    List (String × CacheEntry) :=
  cache.filter fun kv => !(decide (CACHE_TTL < now - kv.2.timestamp))

/-- One full Janitor cycle: the directory loop, then — only if no
exception aborted the cycle — the cache cleanup. -/
def sweepOnce (now : Nat) (entries : List DirEntry)
    (cache : List (String × CacheEntry)) :
    List DirEntry × List (String × CacheEntry) :=
  match sweepDirs entries with
  | (survivors, aborted) =>
    (survivors, if aborted then cache else cleanCache now cache)

/-! ## Temporary File Registry retrieval (`temp_download_file`,
main.py lines 258-281)

The handler scans `temp_files` in insertion order and serves the first
registered path that *contains* the decoded filename as a substring
(`if decoded_filename in path`, line 268); a falsy (`None`/empty) result
or a path missing on disk yields 404. -/

deriving instance DecidableEq for Except

/-- The Python substring test `needle in hay`. -/
def pyIn (needle hay : String) : Prop :=
  needle.data <:+: hay.data

instance (needle hay : String) : Decidable (pyIn needle hay) :=
  List.decidableInfix needle.data hay.data

/-- Boolean form of `pyIn`. -/
def pyInB (needle hay : String) : Bool :=
  decide (pyIn needle hay)

/-- Python `Path(p).name`: the final path segment of `p`. -/
def lastSegment (p : String) : String :=
  ⟨(p.data.reverse.takeWhile (fun c => c != '/')).reverse⟩

/-- The retrieval handler: linear scan of the registry by substring
containment, then falsiness and existence checks.  Returns the path that
would be served, or the HTTP status 404. -/
def temp_download_file (temp_files : List (String × String)) (decoded : String)
    (onDisk : String → Bool) : Except Nat String :=
  match temp_files.find? (fun kv => pyInB decoded kv.2) with
  | some kv =>
    if kv.2 = "" then .error 404
    else if onDisk kv.2 then .ok kv.2 else .error 404
  | none => .error 404

/-! ## The synchronous endpoint `get_audio_download_link`
(main.py lines 123-256)

Modelled as a pure function from the request, an environment (clock,
disk oracle, tool behaviour, staging contents, whether the
`shutil.move` to the stable path succeeds, the generated staging
directory name and the request base URL) and the two shared maps, to the
HTTP response, the updated maps and the list of tool invocations
performed.  The `file_size` response field is not modelled (no claim
concerns it). -/

/-- The request body (`DownloadRequest`, main.py lines 46-50). -/
structure DLRequest where
  spotify_url : String
  format : String
  quality : String

deriving DecidableEq, Repr

structure HTTPError where
  code : Nat
  detail : String

deriving DecidableEq, Repr

structure LinkResponse where
  spotify_url : String
  audio_download_url : String
  filename : String
  format : String
  quality : String
  cached : Bool

deriving DecidableEq, Repr

structure SyncEnv where
  now : Nat
  onDisk : String → Bool
  run : ToolRun
  stagingFiles : List String
  /-- The generated staging directory name `temp_{uuid4()}`. -/
  tempDirName : String
  /-- Whether the `shutil.move` to the stable path succeeds
  (main.py lines 214-236: on failure the original location is kept). -/
  moveSucceeds : Bool
  base_url : String

/-- The downloads root, as a path string. -/
def DOWNLOAD_DIR : String := "downloads"

/-- The spotDL command built by the endpoint (main.py lines 156-165).
The requested quality is not a parameter: the command always forces
`--bitrate 128k`. -/
def sync_download_cmd (spotify_url format temp_dir : String) : List String :=
  ["spotdl", "download", spotify_url, "--output", temp_dir,
   "--format", format, "--threads", "8", "--bitrate", "128k",
   "--skip-album-art"]

/-- One glob pattern `*.{ext}` over the staging contents. -/
def globMatches (files : List String) (ext : String) : List String :=
  files.filter (hasExt ext)

/-- Artifact discovery (main.py lines 190-197): the patterns
`*.{format}`, `*.mp3`, `*.m4a`, `*.ogg`, `*.wav` in order, collecting
all matches (the first element of the result is the file the endpoint
uses).  There is no any-file pattern in this list. -/
def findDownloadedFiles (format : String) (files : List String) : List String :=
  globMatches files format ++ globMatches files "mp3" ++
    globMatches files "m4a" ++ globMatches files "ogg" ++
    globMatches files "wav"

/-- The 400 detail when discovery finds nothing (main.py line 206); the
list rendering of the directory contents is simplified to a
comma-separated list of the names. -/
def noAudioMsg (files : List String) : String :=
  "No audio file found after download. Files found: " ++
    String.intercalate ", " files

structure SyncResult where
  response : Except HTTPError LinkResponse
  url_cache : List (String × CacheEntry)
  temp_files : List (String × String)
  /-- The tool invocations performed while handling the request. -/
  procCalls : List (List String)

/-- The endpoint body.  `md5` is the abstract fingerprint hash applied
to `cache_key_input` (main.py line 131). -/
def get_audio_download_link (md5 : String → String) (req : DLRequest)
    (env : SyncEnv) (url_cache : List (String × CacheEntry))
    (temp_files : List (String × String)) : SyncResult :=
  match cacheLookup url_cache
      (md5 (cache_key_input req.spotify_url req.format req.quality))
      env.now env.onDisk with
  | some e =>
    { response := .ok
        { spotify_url := req.spotify_url,
          audio_download_url :=
            env.base_url ++ "/temp-download/" ++ lastSegment e.file_path,
          filename := lastSegment e.file_path,
          format := req.format, quality := req.quality, cached := true },
      url_cache := url_cache,
      temp_files := dictSet temp_files
        (env.base_url ++ "/temp-download/" ++ lastSegment e.file_path)
        e.file_path,
      procCalls := [] }
  | none =>
    if timedOut env.run then
      { response := .error ⟨408, "Download timeout after 2 minutes"⟩,
        url_cache := url_cache, temp_files := temp_files,
        procCalls := [sync_download_cmd req.spotify_url req.format
          (DOWNLOAD_DIR ++ "/" ++ env.tempDirName)] }
    else if env.run.returncode ≠ 0 then
      { response := .error ⟨400, "Download failed: " ++ env.run.stderrText⟩,
        url_cache := url_cache, temp_files := temp_files,
        procCalls := [sync_download_cmd req.spotify_url req.format
          (DOWNLOAD_DIR ++ "/" ++ env.tempDirName)] }
    else
      match findDownloadedFiles req.format env.stagingFiles with
      | [] =>
        { response := .error ⟨400, noAudioMsg env.stagingFiles⟩,
          url_cache := url_cache, temp_files := temp_files,
          procCalls := [sync_download_cmd req.spotify_url req.format
            (DOWNLOAD_DIR ++ "/" ++ env.tempDirName)] }
      | audio :: _ =>
        { response := .ok
            { spotify_url := req.spotify_url,
              audio_download_url := env.base_url ++ "/temp-download/" ++
                (if env.moveSucceeds then
                  md5 (cache_key_input req.spotify_url req.format req.quality)
                    ++ "_" ++ audio
                 else audio),
              filename :=
                if env.moveSucceeds then
                  md5 (cache_key_input req.spotify_url req.format req.quality)
                    ++ "_" ++ audio
                else audio,
              format := req.format, quality := "128k", cached := false },
          url_cache := cacheStore url_cache
            (md5 (cache_key_input req.spotify_url req.format req.quality))
            (if env.moveSucceeds then
              DOWNLOAD_DIR ++ "/" ++
                (md5 (cache_key_input req.spotify_url req.format req.quality)
                  ++ "_" ++ audio)
             else DOWNLOAD_DIR ++ "/" ++ env.tempDirName ++ "/" ++ audio)
            env.now,
          temp_files := dictSet temp_files
            (env.base_url ++ "/temp-download/" ++
              (if env.moveSucceeds then
                md5 (cache_key_input req.spotify_url req.format req.quality)
                  ++ "_" ++ audio
               else audio))
            (if env.moveSucceeds then
              DOWNLOAD_DIR ++ "/" ++
                (md5 (cache_key_input req.spotify_url req.format req.quality)
                  ++ "_" ++ audio)
             else DOWNLOAD_DIR ++ "/" ++ env.tempDirName ++ "/" ++ audio),
          procCalls := [sync_download_cmd req.spotify_url req.format
            (DOWNLOAD_DIR ++ "/" ++ env.tempDirName)] }

/-! ## Job deletion (`delete_task`, main.py lines 521-542)

`DELETE /task/{task_id}` looks the record up, deletes the backing file
(or directory, recursively) if `file_path` is set and exists, and
removes the record from `task_status`.  `url_cache` and `temp_files`
are not touched. -/

/-- One path on disk. -/
structure DiskEntry where
  path : String
  isDir : Bool

deriving DecidableEq, Repr

/-- Python `os.path.exists`. -/
def diskExists (disk : List DiskEntry) (p : String) : Bool :=
  disk.any fun e => decide (e.path = p)

/-- Python `os.path.isdir`. -/
def diskIsDir (disk : List DiskEntry) (p : String) : Bool :=
  ((disk.find? fun e => decide (e.path = p)).map DiskEntry.isDir).getD false

/-- Whether `q` lies strictly inside the directory `p`. -/
def underPath (p q : String) : Bool :=
  (p ++ "/").data.isPrefixOf q.data

/-- Python `shutil.rmtree p`: removes `p` and everything under it. -/
def diskRemoveTree (disk : List DiskEntry) (p : String) : List DiskEntry :=
  disk.filter fun e => !(decide (e.path = p) || underPath p e.path)

/-- Python `os.remove p`: removes the single file `p`. -/
def diskRemoveFile (disk : List DiskEntry) (p : String) : List DiskEntry :=
  disk.filter fun e => !(decide (e.path = p))

/-- Python dict deletion `del d[k]`. -/
def dictErase {β : Type} (l : List (String × β)) (k : String) :
    List (String × β) :=
  l.eraseP fun kv => kv.1 == k

/-- The whole process state `delete_task` can touch. -/
structure ApiState where
  task_status : List (String × JobRecord)
  url_cache : List (String × CacheEntry)
  temp_files : List (String × String)
  disk : List DiskEntry

/-- The handler `delete_task` (main.py lines 521-542). -/
def delete_task (task_id : String) (st : ApiState) : Except Nat ApiState :=
  match st.task_status.lookup task_id with
  | none => .error 404
  | some r =>
    .ok { st with
      task_status := dictErase st.task_status task_id,
      disk :=
        match r.file_path with
        | some p =>
          if diskExists st.disk p then
            if diskIsDir st.disk p then diskRemoveTree st.disk p
            else diskRemoveFile st.disk p
          else st.disk
        | none => st.disk }

/-- A concrete state for exercising `delete_task`: two job records, a
cache entry and a registry entry referencing the first job's file. -/
def exampleState : ApiState :=
  { task_status :=
      [("t1", ⟨"completed", none, some "downloads/x.mp3", none⟩),
       ("t2", ⟨"queued", none, none, none⟩)],
    url_cache := [("k", ⟨"downloads/x.mp3", 0⟩)],
    temp_files := [("u", "downloads/x.mp3")],
    disk := [⟨"downloads/x.mp3", false⟩, ⟨"downloads/y.mp3", false⟩] }

-- Basic dictionary lemmas.

theorem lookup_dictSet_self {β : Type} (l : List (String × β)) (k : String) (v : β) :
    List.lookup k (dictSet l k v) = some v := by
  simp [dictSet, List.lookup]

theorem lookup_eraseP_ne {β : Type} (l : List (String × β)) (k k' : String)
    (h : k' ≠ k) :
    List.lookup k' (l.eraseP (fun kv => kv.1 == k)) = List.lookup k' l := by
  induction l with
  | nil => rfl
  | cons hd tl ih =>
    by_cases hk : hd.1 = k
    · have h1 : (hd.1 == k) = true := by simp [hk]
      have h2 : (k' == hd.1) = false := by
        simp [hk]
        exact h
      simp [List.eraseP_cons, h1, List.lookup, h2]
    · have h1 : (hd.1 == k) = false := by simp [hk]
      simp [List.eraseP_cons, h1, List.lookup, ih]

theorem lookup_dictSet_ne {β : Type} (l : List (String × β)) (k k' : String) (v : β)
    (h : k' ≠ k) :
    List.lookup k' (dictSet l k v) = List.lookup k' l := by
  have hne : (k' == k) = false := by simp [h]
  simp [dictSet, List.lookup, hne]
  exact lookup_eraseP_ne l k k' h

/-! ### Trace characterizations: every run of each executor produces one
of a small list of write traces. -/

theorem track_trace_cases (env : ExecEnv) :
    download_track_trace env = [.setStatus "downloading"] ∨
    download_track_trace env =
      [.setStatus "downloading", .setStatus "failed",
        .setError env.run.stderrText] ∨
    download_track_trace env =
      [.setStatus "downloading", .setStatus "failed",
        .setError "No file found after download"] ∨
    ∃ f, download_track_trace env =
      [.setStatus "downloading", .setStatus "completed", .setFilePath f] := by
  unfold download_track_trace
  cases h : env.run.exitTime with
  | none => left; rfl
  | some t =>
    by_cases hrc : env.run.returncode ≠ 0
    · right; left; rw [if_pos hrc]
    · rw [if_neg hrc]
      by_cases he : (env.stagingFiles.filter (hasExt "mp3")).isEmpty
      · rw [if_pos he]
        cases env.stagingFiles with
        | nil => right; right; left; rfl
        | cons f fs => right; right; right; exact ⟨f, rfl⟩
      · rw [if_neg he]
        cases hm : env.stagingFiles.filter (hasExt "mp3") with
        | nil => simp [hm] at he
        | cons f fs => right; right; right; exact ⟨f, rfl⟩

theorem playlist_trace_cases (outputDir : String) (env : ExecEnv) :
    download_playlist_trace outputDir env = [.setStatus "downloading"] ∨
    download_playlist_trace outputDir env =
      [.setStatus "downloading", .setStatus "failed",
        .setError env.run.stderrText] ∨
    download_playlist_trace outputDir env =
      [.setStatus "downloading", .setStatus "failed",
        .setError "No files found after download"] ∨
    download_playlist_trace outputDir env =
      [.setStatus "downloading", .setStatus "completed",
        .setFilePath outputDir] := by
  unfold download_playlist_trace
  cases h : env.run.exitTime with
  | none => left; rfl
  | some t =>
    by_cases hrc : env.run.returncode ≠ 0
    · right; left; rw [if_pos hrc]
    · rw [if_neg hrc]
      by_cases he : (env.stagingFiles.filter (hasExt "mp3")).isEmpty
      · right; right; left; rw [if_pos he]
      · right; right; right; rw [if_neg he]

theorem audio_link_trace_cases (format base_url : String) (env : ExecEnv) :
    download_audio_link_trace format base_url env =
      [.setStatus "downloading", .setStatus "failed",
        .setError "Download timeout after 2 minutes"] ∨
    download_audio_link_trace format base_url env =
      [.setStatus "downloading", .setStatus "failed",
        .setError env.run.stderrText] ∨
    download_audio_link_trace format base_url env =
      [.setStatus "downloading", .setStatus "failed",
        .setError env.run.stderrText,
        .setStatus "failed", .setError env.rmtreeErrText] ∨
    download_audio_link_trace format base_url env =
      [.setStatus "downloading", .setStatus "failed",
        .setError "No audio file found"] ∨
    download_audio_link_trace format base_url env =
      [.setStatus "downloading", .setStatus "failed",
        .setError "No audio file found",
        .setStatus "failed", .setError env.rmtreeErrText] ∨
    ∃ f, download_audio_link_trace format base_url env =
      [.setStatus "downloading", .setStatus "completed",
        .setFilePath (base_url ++ "/temp-download/" ++ f)] := by
  unfold download_audio_link_trace
  by_cases ht : timedOut env.run
  · left; rw [if_pos ht]
  · rw [if_neg ht]
    by_cases hrc : env.run.returncode ≠ 0
    · rw [if_pos hrc]
      by_cases hrb : env.rmtreeRaises
      · right; right; left; rw [if_pos hrb]; rfl
      · right; left; rw [if_neg hrb]; rfl
    · rw [if_neg hrc]
      by_cases he : (env.stagingFiles.filter (hasExt format)).isEmpty
      · rw [if_pos he]
        cases hm : env.stagingFiles.filter (hasExt "mp3") with
        | nil =>
          by_cases hrb : env.rmtreeRaises
          · right; right; right; right; left; rw [if_pos hrb]; rfl
          · right; right; right; left; rw [if_neg hrb]; rfl
        | cons f fs =>
          right; right; right; right; right; exact ⟨f, rfl⟩
      · rw [if_neg he]
        cases hm : env.stagingFiles.filter (hasExt format) with
        | nil => simp [hm] at he
        | cons f fs =>
          right; right; right; right; right; exact ⟨f, rfl⟩

/-- The executors `save_metadata_background`, `get_urls_background` and
`sync_playlist_background` all produce traces of this common shape. -/
theorem processing_trace_cases (resultPath : String) (run : ToolRun)
    (trace : List WriteEvent)
    (hdef : trace = .setStatus "processing" ::
      match run.exitTime with
      | none => []
      | some _ =>
        if run.returncode = 0 then
          [.setStatus "completed", .setFilePath resultPath]
        else
          [.setStatus "failed", .setError run.stderrText]) :
    trace = [.setStatus "processing"] ∨
    trace = [.setStatus "processing", .setStatus "completed",
      .setFilePath resultPath] ∨
    trace = [.setStatus "processing", .setStatus "failed",
      .setError run.stderrText] := by
  subst hdef
  cases h : run.exitTime with
  | none => left; rfl
  | some t =>
    by_cases hrc : run.returncode = 0
    · right; left; rw [if_pos hrc]
    · right; right; rw [if_neg hrc]

theorem update_metadata_trace_cases (run : ToolRun) :
    update_metadata_trace run = [.setStatus "processing"] ∨
    update_metadata_trace run =
      [.setStatus "processing", .setStatus "completed"] ∨
    update_metadata_trace run =
      [.setStatus "processing", .setStatus "failed",
        .setError run.stderrText] := by
  unfold update_metadata_trace
  cases h : run.exitTime with
  | none => left; rfl
  | some t =>
    by_cases hrc : run.returncode = 0
    · right; left; rw [if_pos hrc]
    · right; right; rw [if_neg hrc]

/-- C1 (counterexample): a metadata-update job whose tool run exits 0 ends
`completed` with *neither* `file_path` nor `error` populated
(main.py lines 865-866 set only the status), so "exactly one of the result
location and the error field is populated" fails for this terminal job. -/
theorem C1_counterexample :
    isTerminal (finalRecord (update_metadata_trace ⟨some 1, 0, ""⟩)).status = true ∧
    ¬((finalRecord (update_metadata_trace ⟨some 1, 0, ""⟩)).file_path.isSome = true ∨
      (finalRecord (update_metadata_trace ⟨some 1, 0, ""⟩)).error.isSome = true) := by
  decide

/-- C1 (amended): in every executor run, a `failed` record has `error` set
and `file_path` unset, a `completed` record has `error` unset and
`file_path` set — except for metadata-update jobs, whose `completed`
records set neither — and a record in a non-terminal state has neither
field populated. -/
theorem C1_terminal_field_discipline :
    (∀ env : ExecEnv,
      terminalFieldsOK false (finalRecord (download_track_trace env)) = true) ∧
    (∀ (outputDir : String) (env : ExecEnv),
      terminalFieldsOK false
        (finalRecord (download_playlist_trace outputDir env)) = true) ∧
    (∀ (format base_url : String) (env : ExecEnv),
      terminalFieldsOK false
        (finalRecord (download_audio_link_trace format base_url env)) = true) ∧
    (∀ (savePath : String) (run : ToolRun),
      terminalFieldsOK false
        (finalRecord (save_metadata_trace savePath run)) = true) ∧
    (∀ (urlsPath : String) (run : ToolRun),
      terminalFieldsOK false (finalRecord (get_urls_trace urlsPath run)) = true) ∧
    (∀ (outputDir : String) (run : ToolRun),
      terminalFieldsOK false
        (finalRecord (sync_playlist_trace outputDir run)) = true) ∧
    (∀ run : ToolRun,
      terminalFieldsOK true (finalRecord (update_metadata_trace run)) = true) := by
  refine ⟨?_, ?_, ?_, ?_, ?_, ?_, ?_⟩
  · intro env
    rcases track_trace_cases env with h | h | h | ⟨f, h⟩ <;> rw [h] <;> rfl
  · intro outputDir env
    rcases playlist_trace_cases outputDir env with h | h | h | h <;> rw [h] <;> rfl
  · intro format base_url env
    rcases audio_link_trace_cases format base_url env with
      h | h | h | h | h | ⟨f, h⟩ <;> rw [h] <;> rfl
  · intro savePath run
    rcases processing_trace_cases savePath run (save_metadata_trace savePath run) rfl with h | h | h <;>
      rw [h] <;> rfl
  · intro urlsPath run
    rcases processing_trace_cases urlsPath run (get_urls_trace urlsPath run) rfl with h | h | h <;>
      rw [h] <;> rfl
  · intro outputDir run
    rcases processing_trace_cases outputDir run (sync_playlist_trace outputDir run) rfl with h | h | h <;>
      rw [h] <;> rfl
  · intro run
    rcases update_metadata_trace_cases run with h | h | h <;> rw [h] <;> rfl

/-- C2 (counterexample): a track-download job whose tool process never
exits stays `downloading` forever — `download_track_background` awaits
`process.communicate()` with no timeout (main.py line 658), so the job
never becomes `failed` with a timeout error. -/
theorem C2_counterexample :
    (finalRecord (download_track_trace ⟨⟨none, 0, ""⟩, [], false, ""⟩)).status =
      "downloading" ∧
    isTerminal
      (finalRecord (download_track_trace ⟨⟨none, 0, ""⟩, [], false, ""⟩)).status =
      false := by
  decide

/-- C2 (amended): only `download_audio_link_background` bounds the tool
invocation with the 120-second timeout — when the tool has not exited
within 120 seconds that job becomes `failed` with the timeout-specific
error — while `download_track_background` and
`download_playlist_background` await the tool with no timeout, so with a
never-exiting tool those jobs remain `downloading` indefinitely. -/
theorem C2_timeout_only_on_audio_link :
    (∀ (format base_url : String) (env : ExecEnv), timedOut env.run = true →
      finalRecord (download_audio_link_trace format base_url env) =
        { status := "failed", progress := none, file_path := none,
          error := some "Download timeout after 2 minutes" }) ∧
    (∀ env : ExecEnv, env.run.exitTime = none →
      (finalRecord (download_track_trace env)).status = "downloading") ∧
    (∀ (outputDir : String) (env : ExecEnv), env.run.exitTime = none →
      (finalRecord (download_playlist_trace outputDir env)).status =
        "downloading") := by
  refine ⟨?_, ?_, ?_⟩
  · intro format base_url env h
    unfold download_audio_link_trace
    rw [if_pos h]
    rfl
  · intro env h
    unfold download_track_trace
    rw [h]
    rfl
  · intro outputDir env h
    unfold download_playlist_trace
    rw [h]
    rfl

/-- C2 (witness): the amended theorem applied to a concrete timed-out
audio-link run and a concrete never-exiting track run. -/
theorem C2_timeout_witness :
    finalRecord
      (download_audio_link_trace "mp3" "http://h" ⟨⟨none, 1, "x"⟩, [], false, ""⟩) =
      { status := "failed", progress := none, file_path := none,
        error := some "Download timeout after 2 minutes" } ∧
    (finalRecord (download_track_trace ⟨⟨none, 0, ""⟩, ["a.mp3"], false, ""⟩)).status =
      "downloading" :=
  ⟨C2_timeout_only_on_audio_link.1 "mp3" "http://h" _ (by decide),
   C2_timeout_only_on_audio_link.2.1 _ (by decide)⟩

/-- C3 (counterexample): after a successful track download the executor
sets `status = "completed"` and *then* writes `file_path`
(main.py lines 670-671), so a field of the record is written after the
status became terminal. -/
theorem C3_counterexample :
    writesAfterTerminal
      (download_track_trace ⟨⟨some 1, 0, ""⟩, ["a.mp3"], false, ""⟩) =
      [.setFilePath "a.mp3"] ∧
    writesAfterTerminal
      (download_track_trace ⟨⟨some 1, 0, ""⟩, ["a.mp3"], false, ""⟩) ≠ [] := by
  decide

/-- C3 (amended): once an executor has written a terminal status, any
further status write is again terminal and in fact repeats that same
terminal value — the record never reverts to a non-terminal state and
never flips between `completed` and `failed` — but the executor does
write fields after the terminal status write: the `file_path`/`error`
of the same terminal update and, when discarding the staging directory
raises after a failure was recorded (main.py lines 593-594, 604-605,
623-625), `status`/`error` once more. -/
theorem C3_status_stays_terminal :
    (∀ env : ExecEnv,
      statusDisciplineOK (download_track_trace env) = true) ∧
    (∀ (outputDir : String) (env : ExecEnv),
      statusDisciplineOK (download_playlist_trace outputDir env) = true) ∧
    (∀ (format base_url : String) (env : ExecEnv),
      statusDisciplineOK
        (download_audio_link_trace format base_url env) = true) ∧
    (∀ (savePath : String) (run : ToolRun),
      statusDisciplineOK (save_metadata_trace savePath run) = true) ∧
    (∀ (urlsPath : String) (run : ToolRun),
      statusDisciplineOK (get_urls_trace urlsPath run) = true) ∧
    (∀ (outputDir : String) (run : ToolRun),
      statusDisciplineOK (sync_playlist_trace outputDir run) = true) ∧
    (∀ run : ToolRun,
      statusDisciplineOK (update_metadata_trace run) = true) := by
  refine ⟨?_, ?_, ?_, ?_, ?_, ?_, ?_⟩
  · intro env
    rcases track_trace_cases env with h | h | h | ⟨f, h⟩ <;> rw [h] <;> rfl
  · intro outputDir env
    rcases playlist_trace_cases outputDir env with h | h | h | h <;> rw [h] <;> rfl
  · intro format base_url env
    rcases audio_link_trace_cases format base_url env with
      h | h | h | h | h | ⟨f, h⟩ <;> rw [h] <;> rfl
  · intro savePath run
    rcases processing_trace_cases savePath run (save_metadata_trace savePath run) rfl with h | h | h <;>
      rw [h] <;> rfl
  · intro urlsPath run
    rcases processing_trace_cases urlsPath run (get_urls_trace urlsPath run) rfl with h | h | h <;>
      rw [h] <;> rfl
  · intro outputDir run
    rcases processing_trace_cases outputDir run (sync_playlist_trace outputDir run) rfl with h | h | h <;>
      rw [h] <;> rfl
  · intro run
    rcases update_metadata_trace_cases run with h | h | h <;> rw [h] <;> rfl

/-- C4: after `store(f, p)` at time `t`, a lookup of `f` at time `now` hits
and returns the entry `⟨p, t⟩` exactly while less than the 1-hour TTL has
elapsed and the file at `p` still exists; it misses when the TTL has
elapsed or the file is gone (even before the TTL), and a fingerprint
absent from the cache always misses. -/
theorem C4_cache_lookup_semantics :
    (∀ (cache : List (String × CacheEntry)) (k p : String) (t now : Nat)
      (onDisk : String → Bool), t ≤ now →
      (now - t < CACHE_TTL → onDisk p = true →
        cacheLookup (cacheStore cache k p t) k now onDisk = some ⟨p, t⟩) ∧
      (CACHE_TTL ≤ now - t →
        cacheLookup (cacheStore cache k p t) k now onDisk = none) ∧
      (onDisk p = false →
        cacheLookup (cacheStore cache k p t) k now onDisk = none)) ∧
    (∀ (cache : List (String × CacheEntry)) (k : String) (now : Nat)
      (onDisk : String → Bool), cache.lookup k = none →
      cacheLookup cache k now onDisk = none) := by
  constructor
  · intro cache k p t now onDisk _
    refine ⟨?_, ?_, ?_⟩
    · intro hfresh hdisk
      simp [cacheLookup, cacheStore, lookup_dictSet_self, hfresh, hdisk]
    · intro hstale
      have h1 : ¬ now - t < CACHE_TTL := by omega
      simp [cacheLookup, cacheStore, lookup_dictSet_self, h1]
    · intro hdisk
      simp [cacheLookup, cacheStore, lookup_dictSet_self, hdisk]
  · intro cache k now onDisk habs
    simp [cacheLookup, habs]

/-- C4 (witness): the theorem applied at a concrete store — fresh hit,
TTL-expired miss, and file-deleted miss. -/
theorem C4_cache_witness :
    cacheLookup (cacheStore [] "k" "/d/f.mp3" 0) "k" 10 (fun _ => true) =
      some ⟨"/d/f.mp3", 0⟩ ∧
    cacheLookup (cacheStore [] "k" "/d/f.mp3" 0) "k" 9999 (fun _ => true) = none ∧
    cacheLookup (cacheStore [] "k" "/d/f.mp3" 0) "k" 10 (fun _ => false) = none :=
  ⟨(C4_cache_lookup_semantics.1 [] "k" "/d/f.mp3" 0 10 (fun _ => true)
      (by decide)).1 (by decide) rfl,
   (C4_cache_lookup_semantics.1 [] "k" "/d/f.mp3" 0 9999 (fun _ => true)
      (by decide)).2.1 (by decide),
   (C4_cache_lookup_semantics.1 [] "k" "/d/f.mp3" 0 10 (fun _ => false)
      (by decide)).2.2 rfl⟩

theorem sweepDirs_abort (pre : List DirEntry) (e : DirEntry)
    (post : List DirEntry) (he : sweepDeletes e = true)
    (hr : e.rmtreeRaises = true)
    (hpre : ∀ d ∈ pre, sweepDeletes d = true → d.rmtreeRaises = false) :
    sweepDirs (pre ++ e :: post) =
      (pre.filter (fun d => !sweepDeletes d) ++ e :: post, true) := by
  induction pre with
  | nil => simp [sweepDirs, he, hr]
  | cons d rest ih =>
    have ihh := ih (fun x hx hsx => hpre x (List.mem_cons_of_mem d hx) hsx)
    by_cases hd : sweepDeletes d = true
    · have hdr : d.rmtreeRaises = false := hpre d (List.mem_cons_self d rest) hd
      simp [sweepDirs, hd, hdr, ihh, List.filter_cons]
    · have hd' : sweepDeletes d = false := by
        cases hsd : sweepDeletes d
        · rfl
        · exact absurd hsd hd
      simp [sweepDirs, hd', ihh, List.filter_cons]

/-- C6 (counterexample): with two over-age `temp_*` directories where
deleting the first raises, and an expired cache entry, the cycle removes
nothing: the second directory and the expired cache entry survive the
cycle even though both were due for deletion. -/
theorem C6_counterexample :
    sweepOnce 10000
      [⟨"temp_a", true, 4000, true⟩, ⟨"temp_b", true, 4000, false⟩]
      [("k", ⟨"/d/p.mp3", 0⟩)] =
      ([⟨"temp_a", true, 4000, true⟩, ⟨"temp_b", true, 4000, false⟩],
       [("k", ⟨"/d/p.mp3", 0⟩)]) ∧
    sweepDeletes ⟨"temp_b", true, 4000, false⟩ = true ∧
    CACHE_TTL < 10000 - 0 := by
  decide

/-- C6 (amended): an `rmtree` error on one staging directory aborts the
remainder of that sweep cycle — directories after the failing one are
not examined and the expired cache entries of that cycle are not
removed; only the directories deleted before the error make progress
(the error is logged and the loop continues with the next cycle). -/
theorem C6_sweep_error_aborts_cycle (pre : List DirEntry) (e : DirEntry)
    (post : List DirEntry) (cache : List (String × CacheEntry)) (now : Nat)
    (he : sweepDeletes e = true) (hr : e.rmtreeRaises = true)
    (hpre : ∀ d ∈ pre, sweepDeletes d = true → d.rmtreeRaises = false) :
    sweepOnce now (pre ++ e :: post) cache =
      (pre.filter (fun d => !sweepDeletes d) ++ e :: post, cache) := by
  unfold sweepOnce
  rw [sweepDirs_abort pre e post he hr hpre]
  rfl

/-- C6 (witness): a concrete aborted cycle — the deletable directory
before the failing one is removed, the one after it and the expired
cache entry survive. -/
theorem C6_sweep_error_witness :
    sweepOnce 10000
      [⟨"temp_p", true, 4000, false⟩, ⟨"temp_a", true, 4000, true⟩,
        ⟨"temp_b", true, 4000, false⟩]
      [("k", ⟨"/d/p.mp3", 0⟩)] =
      ([⟨"temp_a", true, 4000, true⟩, ⟨"temp_b", true, 4000, false⟩],
       [("k", ⟨"/d/p.mp3", 0⟩)]) := by
  have h := C6_sweep_error_aborts_cycle
    [⟨"temp_p", true, 4000, false⟩] ⟨"temp_a", true, 4000, true⟩
    [⟨"temp_b", true, 4000, false⟩] [("k", ⟨"/d/p.mp3", 0⟩)] 10000
    (by decide) (by decide) (by decide)
  exact h.trans (by decide)

theorem mem_sweepDirs_of_not_deleted :
    ∀ (entries : List DirEntry) (e : DirEntry), e ∈ entries →
      sweepDeletes e = false → e ∈ (sweepDirs entries).1 := by
  intro entries
  induction entries with
  | nil => intro e he _; cases he
  | cons d rest ih =>
    intro e he hs
    rcases List.mem_cons.mp he with rfl | hmem
    · simp [sweepDirs, hs]
    · by_cases hd : sweepDeletes d = true
      · by_cases hdr : d.rmtreeRaises = true
        · simp [sweepDirs, hd, hdr]
          right
          exact hmem
        · have hdr' : d.rmtreeRaises = false := by
            cases hx : d.rmtreeRaises
            · rfl
            · exact absurd hx hdr
          simp [sweepDirs, hd, hdr', ih e hmem hs]
      · have hd' : sweepDeletes d = false := by
          cases hx : sweepDeletes d
          · rfl
          · exact absurd hx hd
        simp [sweepDirs, hd']
        right
        exact ih e hmem hs

theorem mem_of_mem_sweepDirs :
    ∀ (entries : List DirEntry) (e : DirEntry),
      e ∈ (sweepDirs entries).1 → e ∈ entries := by
  intro entries
  induction entries with
  | nil => intro e he; exact absurd he (by simp [sweepDirs])
  | cons d rest ih =>
    intro e he
    by_cases hd : sweepDeletes d = true
    · by_cases hdr : d.rmtreeRaises = true
      · simp [sweepDirs, hd, hdr] at he
        simpa using he
      · have hdr' : d.rmtreeRaises = false := by
          cases hx : d.rmtreeRaises
          · rfl
          · exact absurd hx hdr
        simp [sweepDirs, hd, hdr'] at he
        exact List.mem_cons_of_mem d (ih e he)
    · have hd' : sweepDeletes d = false := by
        cases hx : sweepDeletes d
        · rfl
        · exact absurd hx hd
      simp [sweepDirs, hd'] at he
      rcases he with h1 | hmem
      · rw [h1]
        exact List.mem_cons_self d rest
      · exact List.mem_cons_of_mem d (ih e hmem)

/-- C8: a Janitor cycle deletes only entries that are directories whose
name starts with `temp_` (and are over-age); in particular a stable
file — not a directory — always survives every sweep, whatever its name
or age, and the sweep never adds entries.  So after the Result Cache
entry for a stable file expires, the file itself is still on disk. -/
theorem C8_sweep_spares_stable_files (now : Nat) (entries : List DirEntry)
    (cache : List (String × CacheEntry)) :
    (∀ e ∈ entries, e.isDir = false →
      e ∈ (sweepOnce now entries cache).1) ∧
    (∀ e ∈ entries, sweepDeletes e = false →
      e ∈ (sweepOnce now entries cache).1) ∧
    (∀ e, e ∈ (sweepOnce now entries cache).1 → e ∈ entries) := by
  have h1 : (sweepOnce now entries cache).1 = (sweepDirs entries).1 := by
    unfold sweepOnce
    cases hsd : sweepDirs entries
    rfl
  refine ⟨?_, ?_, ?_⟩
  · intro e he hdir
    rw [h1]
    apply mem_sweepDirs_of_not_deleted entries e he
    simp [sweepDeletes, hdir]
  · intro e he hs
    rw [h1]
    exact mem_sweepDirs_of_not_deleted entries e he hs
  · intro e he
    rw [h1] at he
    exact mem_of_mem_sweepDirs entries e he

/-- C8 (witness): a concrete sweep over an old stable file and an old
`temp_*` directory — the file survives, the directory is deleted. -/
theorem C8_sweep_witness :
    (⟨"ab12_track.mp3", false, 999999, false⟩ : DirEntry) ∈
      (sweepOnce 10000
        [⟨"ab12_track.mp3", false, 999999, false⟩,
          ⟨"temp_x", true, 4000, false⟩] []).1 ∧
    (sweepOnce 10000
      [⟨"ab12_track.mp3", false, 999999, false⟩,
        ⟨"temp_x", true, 4000, false⟩] []).1 =
      [⟨"ab12_track.mp3", false, 999999, false⟩] :=
  ⟨(C8_sweep_spares_stable_files 10000
      [⟨"ab12_track.mp3", false, 999999, false⟩, ⟨"temp_x", true, 4000, false⟩]
      []).1 ⟨"ab12_track.mp3", false, 999999, false⟩ (by decide) rfl,
   by decide⟩

/-- C7 (counterexample): requesting the name `downloads` serves the file
`/d/downloads/track.mp3` because the match is substring containment over
the whole registered path, even though no registered path has final
segment `downloads` — the claim predicts 404 here. -/
theorem C7_counterexample :
    temp_download_file [("u1", "/d/downloads/track.mp3")] "downloads"
      (fun _ => true) = .ok "/d/downloads/track.mp3" ∧
    lastSegment "/d/downloads/track.mp3" ≠ "downloads" := by
  decide

/-- C7 (amended): retrieval resolves the decoded filename to the first
registered path *containing* it as a substring (not by final-segment
match); a served file is always some registered, non-empty path that
contains the requested name and exists on disk, and the request fails
with 404 when no registered path contains the name or when the resolved
path is missing on disk. -/
theorem C7_resolution_by_substring :
    (∀ (temp_files : List (String × String)) (decoded : String)
      (onDisk : String → Bool) (p : String),
      temp_download_file temp_files decoded onDisk = .ok p →
      (∃ u, (u, p) ∈ temp_files) ∧ pyIn decoded p ∧ onDisk p = true ∧ p ≠ "") ∧
    (∀ (temp_files : List (String × String)) (decoded : String)
      (onDisk : String → Bool),
      (∀ kv ∈ temp_files, ¬ pyIn decoded kv.2) →
      temp_download_file temp_files decoded onDisk = .error 404) ∧
    (∀ (temp_files : List (String × String)) (decoded : String)
      (onDisk : String → Bool) (kv : String × String),
      temp_files.find? (fun kv => pyInB decoded kv.2) = some kv →
      onDisk kv.2 = false →
      temp_download_file temp_files decoded onDisk = .error 404) := by
  refine ⟨?_, ?_, ?_⟩
  · intro temp_files decoded onDisk p hok
    unfold temp_download_file at hok
    cases hf : temp_files.find? (fun kv => pyInB decoded kv.2) with
    | none => rw [hf] at hok; cases hok
    | some kv =>
      simp only [hf] at hok
      by_cases hemp : kv.2 = ""
      · rw [if_pos hemp] at hok; cases hok
      · rw [if_neg hemp] at hok
        by_cases hdisk : onDisk kv.2 = true
        · rw [if_pos hdisk] at hok
          have hp : kv.2 = p := by
            cases hok
            rfl
          have hmem := List.mem_of_find?_eq_some hf
          have hpred := List.find?_some hf
          refine ⟨⟨kv.1, ?_⟩, ?_, ?_, ?_⟩
          · rw [← hp]
            exact hmem
          · rw [← hp]
            simpa [pyInB] using hpred
          · rw [← hp]; exact hdisk
          · rw [← hp]; exact hemp
        · rw [if_neg hdisk] at hok; cases hok
  · intro temp_files decoded onDisk hnone
    have hf : temp_files.find? (fun kv => pyInB decoded kv.2) = none := by
      apply List.find?_eq_none.mpr
      intro kv hkv
      simpa [pyInB] using hnone kv hkv
    unfold temp_download_file
    rw [hf]
  · intro temp_files decoded onDisk kv hf hdisk
    unfold temp_download_file
    simp only [hf]
    by_cases hemp : kv.2 = ""
    · rw [if_pos hemp]
    · rw [if_neg hemp, if_neg (by simp [hdisk])]

/-- C7 (witness): the amended theorem applied to a concrete successful
resolution and a concrete no-match 404. -/
theorem C7_resolution_witness :
    ((∃ u, (u, "/d/t.mp3") ∈ [("u1", "/d/t.mp3")]) ∧ pyIn "t.mp3" "/d/t.mp3" ∧
      (fun _ => true) "/d/t.mp3" = true ∧ "/d/t.mp3" ≠ "") ∧
    temp_download_file [("u1", "/d/t.mp3")] "zzz" (fun _ => true) =
      .error 404 :=
  ⟨C7_resolution_by_substring.1 [("u1", "/d/t.mp3")] "t.mp3" (fun _ => true)
      "/d/t.mp3" (by decide),
   C7_resolution_by_substring.2.1 [("u1", "/d/t.mp3")] "zzz" (fun _ => true)
      (by decide)⟩

/-- C5 (counterexample): a successful tool run that leaves only
`track.flac` in the staging directory makes the endpoint fail with the
no-audio-file 400 even though the directory is non-empty — there is no
any-file fallback pattern, contrary to the claim. -/
theorem C5_counterexample :
    findDownloadedFiles "mp3" ["track.flac"] = [] ∧
    (get_audio_download_link (fun s => s)
      { spotify_url := "u", format := "mp3", quality := "best" }
      { now := 0, onDisk := fun _ => false, run := ⟨some 5, 0, ""⟩,
        stagingFiles := ["track.flac"], tempDirName := "temp_t",
        moveSucceeds := true, base_url := "http://h" } [] []).response =
      .error ⟨400, noAudioMsg ["track.flac"]⟩ ∧
    (["track.flac"] : List String) ≠ [] := by
  refine ⟨by decide, rfl, by decide⟩

/-- C5 (amended): on a successful run the endpoint searches the staging
directory with the ordered pattern chain `*.{format}`, `*.mp3`, `*.m4a`,
`*.ogg`, `*.wav` and with no any-file fallback: discovery comes up empty
exactly when no staged file carries one of those five extensions — in
which case the request fails with a 400 whose detail lists the
directory's actual contents, even if the directory is non-empty. -/
theorem C5_artifact_fallback_chain :
    (∀ (format : String) (files : List String),
      findDownloadedFiles format files = [] ↔
        ∀ f ∈ files, hasExt format f = false ∧ hasExt "mp3" f = false ∧
          hasExt "m4a" f = false ∧ hasExt "ogg" f = false ∧
          hasExt "wav" f = false) ∧
    (∀ (md5 : String → String) (req : DLRequest) (env : SyncEnv)
      (uc : List (String × CacheEntry)) (tf : List (String × String)),
      cacheLookup uc (md5 (cache_key_input req.spotify_url req.format req.quality))
        env.now env.onDisk = none →
      timedOut env.run = false →
      env.run.returncode = 0 →
      findDownloadedFiles req.format env.stagingFiles = [] →
      (get_audio_download_link md5 req env uc tf).response =
        .error ⟨400, noAudioMsg env.stagingFiles⟩) := by
  constructor
  · intro format files
    simp only [findDownloadedFiles, globMatches, List.append_eq_nil,
      List.filter_eq_nil_iff]
    constructor
    · rintro ⟨⟨⟨⟨h1, h2⟩, h3⟩, h4⟩, h5⟩ f hf
      exact ⟨by simpa using h1 f hf, by simpa using h2 f hf,
        by simpa using h3 f hf, by simpa using h4 f hf,
        by simpa using h5 f hf⟩
    · intro h
      refine ⟨⟨⟨⟨fun f hf => by simp [(h f hf).1],
        fun f hf => by simp [(h f hf).2.1]⟩,
        fun f hf => by simp [(h f hf).2.2.1]⟩,
        fun f hf => by simp [(h f hf).2.2.2.1]⟩,
        fun f hf => by simp [(h f hf).2.2.2.2]⟩
  · intro md5 req env uc tf hmiss hto hrc hempty
    unfold get_audio_download_link
    simp only [hmiss, hto, hempty]
    simp [hrc]

/-- C5 (witness): the amended theorem applied to a staging directory
holding only `x.aac` for a requested `opus` download. -/
theorem C5_artifact_fallback_witness :
    (findDownloadedFiles "opus" ["x.aac"] = [] ↔
      ∀ f ∈ ["x.aac"], hasExt "opus" f = false ∧ hasExt "mp3" f = false ∧
        hasExt "m4a" f = false ∧ hasExt "ogg" f = false ∧
        hasExt "wav" f = false) ∧
    (get_audio_download_link (fun s => s)
      { spotify_url := "u", format := "opus", quality := "best" }
      { now := 0, onDisk := fun _ => false, run := ⟨some 3, 0, ""⟩,
        stagingFiles := ["x.aac"], tempDirName := "temp_t",
        moveSucceeds := true, base_url := "http://h" } [] []).response =
      .error ⟨400, noAudioMsg ["x.aac"]⟩ :=
  ⟨C5_artifact_fallback_chain.1 "opus" ["x.aac"],
   C5_artifact_fallback_chain.2 (fun s => s)
    { spotify_url := "u", format := "opus", quality := "best" }
    { now := 0, onDisk := fun _ => false, run := ⟨some 3, 0, ""⟩,
      stagingFiles := ["x.aac"], tempDirName := "temp_t",
      moveSucceeds := true, base_url := "http://h" } [] []
    rfl (by decide) (by decide) (by decide)⟩

/-- C9: the requested quality is part of the fingerprint hash input but
is never passed to the tool: the quality determines the cache key input
injectively, the single command invoked on a miss is independent of the
requested quality and always carries `--bitrate 128k`, a cache-miss
success response reports the constant quality `"128k"`, and a cache hit
echoes the requested quality back. -/
theorem C9_quality_fingerprint_only :
    (∀ u f q1 q2 : String,
      cache_key_input u f q1 = cache_key_input u f q2 → q1 = q2) ∧
    (∀ (md5 : String → String) (u f q1 q2 : String) (env : SyncEnv)
      (tf : List (String × String)),
      (get_audio_download_link md5 ⟨u, f, q1⟩ env [] tf).procCalls =
        [sync_download_cmd u f (DOWNLOAD_DIR ++ "/" ++ env.tempDirName)] ∧
      (get_audio_download_link md5 ⟨u, f, q1⟩ env [] tf).procCalls =
        (get_audio_download_link md5 ⟨u, f, q2⟩ env [] tf).procCalls) ∧
    (∀ u f d : String,
      ["--bitrate", "128k"] <:+: sync_download_cmd u f d) ∧
    (∀ (md5 : String → String) (req : DLRequest) (env : SyncEnv)
      (tf : List (String × String)) (r : LinkResponse),
      (get_audio_download_link md5 req env [] tf).response = .ok r →
      r.quality = "128k" ∧ r.cached = false) ∧
    (∀ (md5 : String → String) (req : DLRequest) (env : SyncEnv)
      (uc : List (String × CacheEntry)) (tf : List (String × String))
      (e : CacheEntry),
      cacheLookup uc
        (md5 (cache_key_input req.spotify_url req.format req.quality))
        env.now env.onDisk = some e →
      ∃ r, (get_audio_download_link md5 req env uc tf).response = .ok r ∧
        r.quality = req.quality ∧ r.cached = true) := by
  refine ⟨?_, ?_, ?_, ?_, ?_⟩
  · intro u f q1 q2 h
    have h2 := congrArg String.data h
    simp only [cache_key_input, String.data_append] at h2
    exact String.ext (List.append_cancel_left h2)
  · intro md5 u f q1 q2 env tf
    constructor
    · unfold get_audio_download_link
      have hm : cacheLookup [] (md5 (cache_key_input u f q1)) env.now env.onDisk
          = none := rfl
      simp only [hm]
      by_cases hto : timedOut env.run = true
      · rw [if_pos hto]
      · rw [if_neg hto]
        by_cases hrc : env.run.returncode ≠ 0
        · rw [if_pos hrc]
        · rw [if_neg hrc]
          cases hfd : findDownloadedFiles f env.stagingFiles with
          | nil => rfl
          | cons a rest => rfl
    · unfold get_audio_download_link
      have hm1 : cacheLookup [] (md5 (cache_key_input u f q1)) env.now env.onDisk
          = none := rfl
      have hm2 : cacheLookup [] (md5 (cache_key_input u f q2)) env.now env.onDisk
          = none := rfl
      simp only [hm1, hm2]
      by_cases hto : timedOut env.run = true
      · rw [if_pos hto, if_pos hto]
      · rw [if_neg hto, if_neg hto]
        by_cases hrc : env.run.returncode ≠ 0
        · rw [if_pos hrc, if_pos hrc]
        · rw [if_neg hrc, if_neg hrc]
          cases hfd : findDownloadedFiles f env.stagingFiles with
          | nil => rfl
          | cons a rest => rfl
  · intro u f d
    exact ⟨["spotdl", "download", u, "--output", d, "--format", f,
      "--threads", "8"], ["--skip-album-art"], rfl⟩
  · intro md5 req env tf r hok
    unfold get_audio_download_link at hok
    have hm : cacheLookup []
        (md5 (cache_key_input req.spotify_url req.format req.quality))
        env.now env.onDisk = none := rfl
    simp only [hm] at hok
    by_cases hto : timedOut env.run = true
    · rw [if_pos hto] at hok; cases hok
    · rw [if_neg hto] at hok
      by_cases hrc : env.run.returncode ≠ 0
      · rw [if_pos hrc] at hok; cases hok
      · rw [if_neg hrc] at hok
        cases hfd : findDownloadedFiles req.format env.stagingFiles with
        | nil => simp only [hfd] at hok; cases hok
        | cons a rest =>
          simp only [hfd] at hok
          cases hok
          exact ⟨rfl, rfl⟩
  · intro md5 req env uc tf e hhit
    unfold get_audio_download_link
    simp only [hhit]
    exact ⟨_, rfl, rfl, rfl⟩

/-- C9 (witness): the theorem applied at concrete inputs — fingerprint
injectivity in the quality, the concrete miss response (whose quality is
`"128k"`), and a concrete cache hit echoing the requested quality
`"best"`. -/
theorem C9_quality_witness :
    ("best" = "best") ∧
    (({ spotify_url := "u",
        audio_download_url := "http://h/temp-download/u_mp3_best_a.mp3",
        filename := "u_mp3_best_a.mp3", format := "mp3", quality := "128k",
        cached := false } : LinkResponse).quality = "128k" ∧
      ({ spotify_url := "u",
         audio_download_url := "http://h/temp-download/u_mp3_best_a.mp3",
         filename := "u_mp3_best_a.mp3", format := "mp3", quality := "128k",
         cached := false } : LinkResponse).cached = false) ∧
    (∃ r, (get_audio_download_link (fun _ => "k")
      { spotify_url := "u", format := "mp3", quality := "best" }
      { now := 0, onDisk := fun _ => true, run := ⟨some 3, 0, ""⟩,
        stagingFiles := [], tempDirName := "temp_t",
        moveSucceeds := true, base_url := "http://h" }
      [("k", ⟨"/d/f.mp3", 0⟩)] []).response = .ok r ∧
      r.quality = "best" ∧ r.cached = true) :=
  ⟨C9_quality_fingerprint_only.1 "u" "mp3" "best" "best" rfl,
   C9_quality_fingerprint_only.2.2.2.1 (fun s => s)
     { spotify_url := "u", format := "mp3", quality := "best" }
     { now := 0, onDisk := fun _ => false, run := ⟨some 3, 0, ""⟩,
       stagingFiles := ["a.mp3"], tempDirName := "temp_t",
       moveSucceeds := true, base_url := "http://h" } []
     { spotify_url := "u",
       audio_download_url := "http://h/temp-download/u_mp3_best_a.mp3",
       filename := "u_mp3_best_a.mp3", format := "mp3", quality := "128k",
       cached := false } rfl,
   C9_quality_fingerprint_only.2.2.2.2 (fun _ => "k")
     { spotify_url := "u", format := "mp3", quality := "best" }
     { now := 0, onDisk := fun _ => true, run := ⟨some 3, 0, ""⟩,
       stagingFiles := [], tempDirName := "temp_t",
       moveSucceeds := true, base_url := "http://h" }
     [("k", ⟨"/d/f.mp3", 0⟩)] [] ⟨"/d/f.mp3", 0⟩ rfl⟩

theorem lookup_none_of_forall_ne {β : Type} (l : List (String × β)) (k : String)
    (h : ∀ kv ∈ l, kv.1 ≠ k) : List.lookup k l = none := by
  induction l with
  | nil => rfl
  | cons hd tl ih =>
    have hne : (k == hd.1) = false := by
      simp
      exact fun hkk => h hd (List.mem_cons_self hd tl) hkk.symm
    simp only [List.lookup, hne]
    exact ih fun kv hkv => h kv (List.mem_cons_of_mem hd hkv)

theorem lookup_dictErase_self {β : Type} (l : List (String × β)) (k : String)
    (hnd : (l.map Prod.fst).Nodup) :
    List.lookup k (dictErase l k) = none := by
  induction l with
  | nil => rfl
  | cons hd tl ih =>
    rw [List.map_cons, List.nodup_cons] at hnd
    rcases hnd with ⟨hhd, htl⟩
    by_cases hk : hd.1 = k
    · have h1 : (hd.1 == k) = true := by simp [hk]
      simp only [dictErase, List.eraseP_cons, h1, cond_true]
      apply lookup_none_of_forall_ne
      intro kv hkv hkvk
      have hm : kv.1 ∈ tl.map Prod.fst := List.mem_map_of_mem Prod.fst hkv
      rw [hkvk, ← hk] at hm
      exact hhd hm
    · have h1 : (hd.1 == k) = false := by simp [hk]
      have hne : (k == hd.1) = false := by
        simp
        exact fun hkk => hk hkk.symm
      simp only [dictErase, List.eraseP_cons, h1, cond_false, List.lookup, hne]
      exact ih htl

theorem diskExists_filter_false (disk : List DiskEntry) (p : String)
    (pred : DiskEntry → Bool) (hpred : ∀ e, e.path = p → pred e = false) :
    diskExists (disk.filter pred) p = false := by
  induction disk with
  | nil => rfl
  | cons e rest ih =>
    rw [List.filter_cons]
    by_cases hp : e.path = p
    · rw [hpred e hp, if_neg (by decide)]
      exact ih
    · by_cases hpe : pred e = true
      · rw [hpe, if_pos rfl]
        simp only [diskExists, List.any_cons, decide_eq_false hp,
          Bool.false_or]
        simpa [diskExists] using ih
      · have hpe2 : pred e = false := by
          cases hx : pred e
          · rfl
          · exact absurd hx hpe
        rw [hpe2, if_neg (by decide)]
        exact ih

theorem diskExists_removeTree_self (disk : List DiskEntry) (p : String) :
    diskExists (diskRemoveTree disk p) p = false := by
  apply diskExists_filter_false
  intro e he
  simp [he]

theorem diskExists_removeFile_self (disk : List DiskEntry) (p : String) :
    diskExists (diskRemoveFile disk p) p = false := by
  apply diskExists_filter_false
  intro e he
  simp [he]

/-- C10: deleting an existing job removes exactly that job's record from
the Job Store and its backing path (recursively for a directory) from
disk, returns success, and leaves every other job record, the entire
Result Cache and the entire Temporary File Registry unchanged — cache
entries that referenced the deleted file remain stored but dangle: a
subsequent cache lookup of them misses because the file no longer
exists. -/
theorem C10_delete_task_frame (task_id : String) (st : ApiState)
    (r : JobRecord) (hr : st.task_status.lookup task_id = some r)
    (hnd : (st.task_status.map Prod.fst).Nodup) :
    ∃ st2, delete_task task_id st = .ok st2 ∧
      st2.url_cache = st.url_cache ∧
      st2.temp_files = st.temp_files ∧
      st2.task_status.lookup task_id = none ∧
      (∀ id2, id2 ≠ task_id →
        st2.task_status.lookup id2 = st.task_status.lookup id2) ∧
      (∀ p, r.file_path = some p → diskExists st2.disk p = false) ∧
      (∀ e ∈ st.disk,
        (∀ p, r.file_path = some p →
          e.path ≠ p ∧ underPath p e.path = false) →
        e ∈ st2.disk) ∧
      (∀ e ∈ st2.disk, e ∈ st.disk) ∧
      (∀ (k : String) (ce : CacheEntry) (now : Nat),
        st2.url_cache.lookup k = some ce →
        r.file_path = some ce.file_path →
        cacheLookup st2.url_cache k now (diskExists st2.disk) = none) := by
  unfold delete_task
  simp only [hr]
  refine ⟨_, rfl, rfl, rfl, ?_, ?_, ?_, ?_, ?_, ?_⟩
  · exact lookup_dictErase_self st.task_status task_id hnd
  · intro id2 hne
    exact lookup_eraseP_ne st.task_status task_id id2 hne
  · intro p hp
    simp only [hp]
    by_cases hex : diskExists st.disk p = true
    · rw [if_pos hex]
      by_cases hdir : diskIsDir st.disk p = true
      · rw [if_pos hdir]
        exact diskExists_removeTree_self st.disk p
      · rw [if_neg hdir]
        exact diskExists_removeFile_self st.disk p
    · rw [if_neg hex]
      simpa using hex
  · intro e he hcond
    cases hp : r.file_path with
    | none => simpa [hp] using he
    | some p =>
      rcases hcond p hp with ⟨hne, hup⟩
      simp only [hp]
      by_cases hex : diskExists st.disk p = true
      · rw [if_pos hex]
        by_cases hdir : diskIsDir st.disk p = true
        · rw [if_pos hdir]
          exact List.mem_filter.mpr ⟨he, by simp [hne, hup]⟩
        · rw [if_neg hdir]
          exact List.mem_filter.mpr ⟨he, by simp [hne]⟩
      · rw [if_neg hex]
        exact he
  · intro e he
    cases hp : r.file_path with
    | none => simpa [hp] using he
    | some p =>
      simp only [hp] at he
      by_cases hex : diskExists st.disk p = true
      · rw [if_pos hex] at he
        by_cases hdir : diskIsDir st.disk p = true
        · rw [if_pos hdir] at he
          exact List.mem_of_mem_filter he
        · rw [if_neg hdir] at he
          exact List.mem_of_mem_filter he
      · rw [if_neg hex] at he
        exact he
  · intro k ce now hkc hpc
    unfold cacheLookup
    rw [hkc]
    have hd : diskExists
        (match r.file_path with
          | some p =>
            if diskExists st.disk p = true then
              if diskIsDir st.disk p = true then diskRemoveTree st.disk p
              else diskRemoveFile st.disk p
            else st.disk
          | none => st.disk) ce.file_path = false := by
      simp only [hpc]
      by_cases hex : diskExists st.disk ce.file_path = true
      · rw [if_pos hex]
        by_cases hdir : diskIsDir st.disk ce.file_path = true
        · rw [if_pos hdir]
          exact diskExists_removeTree_self st.disk ce.file_path
        · rw [if_neg hdir]
          exact diskExists_removeFile_self st.disk ce.file_path
      · rw [if_neg hex]
        simpa using hex
    simp [hd]

/-- C10 (witness): the theorem applied to a concrete two-job state whose
cache and registry reference the deleted job's file. -/
theorem C10_delete_task_witness :
    ∃ st2, delete_task "t1" exampleState = .ok st2 ∧
      st2.url_cache = exampleState.url_cache ∧
      st2.temp_files = exampleState.temp_files ∧
      st2.task_status.lookup "t1" = none := by
  obtain ⟨st2, h1, h2, h3, h4, _⟩ :=
    C10_delete_task_frame "t1" exampleState
      ⟨"completed", none, some "downloads/x.mp3", none⟩ rfl (by decide)
  exact ⟨st2, h1, h2, h3, h4⟩

end SpotdlAPI

